import Mathlib

/-!
Verification of the UCI protocol adapter of the weiss chess engine
(src/uci.c) against its natural-language specification.

C strings are embedded as `List Char` (the terminating NUL is the end of
the list), C `int`/`int64_t` as `Int`, C `float` as an exact rational,
and the process-wide mutable option storage as an explicit record that the
embedded `setOption` threads through.  Collaborator functions that live in
other translation units (`SetLimit`, `ParseMove`, `RequestTTSize`, ...)
are either modelled from the spec (marked as such) or taken as parameters.
-/

/- ## C string primitives -/

/-- `isPre needle hay` is true when `needle` is a leading segment of `hay`
(the character-by-character comparison that `strncmp(hay, needle, strlen(needle))
== 0` performs). -/
def isPre : List Char → List Char → Bool
  | [], _ => true
  | _ :: _, [] => false
  | a :: as, b :: bs => a == b && isPre as bs

/-- `strncmpEq a b n` is `strncmp(a, b, n) == 0`: the first `n` characters
agree, where running off the end of either string before the other (the NUL
in C) is a disagreement, and running off the end of both together is
agreement. -/
def strncmpEq : List Char → List Char → Nat → Bool
  | _, _, 0 => true
  | [], [], _ + 1 => true
  | [], _ :: _, _ + 1 => false
  | _ :: _, [], _ + 1 => false
  | a :: as, b :: bs, n + 1 => a == b && strncmpEq as bs n

/-- `subAfter hay needle` follows C `strstr`: `some rest` when `needle` first
occurs in `hay` and `rest` is the suffix of `hay` just after that occurrence,
`none` when `needle` does not occur. -/
def subAfter : List Char → List Char → Option (List Char)
  | [], needle => if isPre needle [] then some [] else none
  | c :: t, needle =>
      if isPre needle (c :: t) then some ((c :: t).drop needle.length)
      else subAfter t needle

/-- `occursIn needle hay` is `strstr(hay, needle) != NULL`. -/
def occursIn (needle hay : List Char) : Bool := (subAfter hay needle).isSome

/-- Digit-accumulation loop of C `atoi`. -/
def atoiDigits : List Char → Int → Int
  | [], acc => acc
  | c :: cs, acc =>
      if c.isDigit then atoiDigits cs (acc * 10 + ((c.toNat : Int) - 48)) else acc

/-- C `atoi`: skip leading whitespace, then an optional sign, then read
decimal digits; anything else (including an empty digit run) yields 0. -/
def atoi (s : List Char) : Int :=
  match s.dropWhile (fun c => c == ' ' || c == '\t' || c == '\n' || c == '\r') with
  | '-' :: rest => - atoiDigits rest 0
  | '+' :: rest => atoiDigits rest 0
  | rest => atoiDigits rest 0

/-- Space-separated tokenisation, as successive `strtok(_, " ")` calls
produce it: the maximal non-space runs, in order.  `cur` accumulates the
current token reversed. -/
def wordsAux : List Char → List Char → List (List Char)
  | [], cur => if cur.isEmpty then [] else [cur.reverse]
  | c :: t, cur =>
      if c == ' ' then
        if cur.isEmpty then wordsAux t [] else cur.reverse :: wordsAux t []
      else wordsAux t (c :: cur)

/-- All space-separated tokens of a string. -/
def wordsOf (s : List Char) : List (List Char) := wordsAux s []

/- ## Command hash (uci.c lines 416-423) -/

/-- Loop body of `HashInput`: `hash ^= *(str++) ^ len++` while the current
character is neither NUL nor a space.  Character codes, the counter and the
running value are non-negative, so C `int` xor is `Nat` xor here. -/
def hashStep : List Char → Nat → Nat → Nat
  | [], _, h => h
  | c :: cs, len, h =>
      if c == ' ' then h else hashStep cs (len + 1) (h ^^^ (c.toNat ^^^ len))

/-- `HashInput` (uci.c lines 417-423): hash of the first token of a string,
starting from 0 with a 1-based position counter. -/
def hashInput (s : List Char) : Nat := hashStep s 1 0

/-- The recognized command keywords, as dispatched in `main`
(uci.c lines 446-454). -/
def uciKeywords : List String :=
  ["go", "uci", "isready", "position", "setoption", "ucinewgame", "stop", "quit"]

/- ## Time control parsing (uci.c lines 121-146) -/

/-- The side to move of the position snapshot (all `ParseTimeControl` reads
from the position). -/
inductive Side where
  | white : Side
  | black : Side

/-- Modelled from the spec: `SearchLimits` (declared in a header outside
src/), with the fields in the declaration order the spec gives in §3:
`start`, the six numeric constraints, `infinite`, `searchmoves`,
`timelimit`, and then `multiPV` — `memset(&Limits, 0, offsetof(SearchLimits,
multiPV))` clears exactly the fields before `multiPV`.  Moves are abstract
(`Int`), since move encoding belongs to a collaborator. -/
structure SearchLimits where
  start : Int
  time : Int
  inc : Int
  movestogo : Int
  movetime : Int
  depth : Int
  mate : Int
  infinite : Bool
  searchmoves : List Int
  timelimit : Bool
  multiPV : Int

/-- Modelled from the spec: `SetLimit` (implemented outside src/) locates
the keyword substring in the line and parses the integer that follows it;
when the keyword is absent the field keeps its (zeroed) value. -/
def setLimit (str kw : List Char) : Int :=
  match subAfter str kw with
  | some rest => atoi rest
  | none => 0

/-- `ParseTimeControl` (uci.c lines 122-146) as a function of the input
line, the side to move, the clock reading `now` and the previous value of
the global `Limits`.  `parseMove` abstracts the external move parser used
for `searchmoves`.  The memset of the field prefix before `multiPV` is
reflected by computing every such field afresh and keeping only `multiPV`
from the old record. -/
def parseTimeControl (parseMove : List Char → Int) (str : List Char)
    (stm : Side) (now : Int) (old : SearchLimits) : SearchLimits :=
  let time := setLimit str (match stm with
    | Side.white => "wtime".toList
    | Side.black => "btime".toList)
  let inc := setLimit str (match stm with
    | Side.white => "winc".toList
    | Side.black => "binc".toList)
  let movetime := setLimit str "movetime".toList
  let depth := setLimit str "depth".toList
  { start := now
    time := time
    inc := inc
    movestogo := setLimit str "movestogo".toList
    movetime := movetime
    depth := if depth = 0 then 100 else depth
    mate := setLimit str "mate".toList
    infinite := occursIn "infinite".toList str
    searchmoves :=
      match subAfter str "searchmoves ".toList with
      | some rest => (wordsOf rest).map parseMove
      | none => []
    timelimit := time != 0 || movetime != 0
    multiPV := old.multiPV }

/- ## Option parsing (uci.c lines 186-292) -/

/-- The `OptionNameIs(name)` macro (uci.c line 192):
`!strncmp(optionName, name, strlen(name))`, a prefix match of the registry
name against the text after `"name "` in the input line. -/
def optionNameIs (optionName name : List Char) : Bool :=
  strncmpEq optionName name name.length

/-- The `BooleanValue` macro (uci.c line 193):
`!strncmp(optionValue, "true", 4)` — the first four characters are compared,
there is no check for the literal `"false"`. -/
def booleanValue (optionValue : List Char) : Bool :=
  strncmpEq optionValue "true".toList 4

/-- The mutable configuration state touched by `SetOption` (uci.c lines 187-292).
Each field is one storage location the if-else chain can assign: the collaborator
calls `RequestTTSize`, `InitThreads` and `tb_init` are modelled as storing their
argument (fields `requestedTTSize`, `threadCount`, `syzygyPath`), `MultiPV` stores
into `Limits.multiPV` (field `multiPV`), and every extern tunable is a field of its
own name.  C `float` storage is modelled as an exact rational. -/
structure UciState where
  requestedTTSize : Int
  threadCount : Int
  syzygyPath : List Char
  multiPV : Int
  noobLimit : Int
  noobbook : Bool
  chess960 : Bool
  onlineSyzygy : Bool
  LMRNoisyBase : ℚ
  LMRNoisyDiv : ℚ
  LMRQuietBase : ℚ
  LMRQuietDiv : ℚ
  IIRDepth : Int
  IIRCutDepth : Int
  RFPDepth : Int
  RFPBase : Int
  RFPHistScore : Int
  RFPHistory : Int
  NMPFlat : Int
  NMPDepth : Int
  NMPHist : Int
  NMPRBase : Int
  NMPRDepth : Int
  NMPREvalDiv : Int
  NMPREvalMin : Int
  ProbCut : Int
  ProbCutDepth : Int
  ProbCutReturn : Int
  LMPImp : Int
  LMPNonImp : Int
  HistPruneDepth : Int
  HistPrune : Int
  SEEPruneDepth : Int
  SEEPruneQ : Int
  SEEPruneN : Int
  SingExtDepth : Int
  SingExtTTDepth : Int
  SingExtDouble : Int
  LMRHist : Int
  DeeperBase : Int
  DeeperDepth : Int
  QSFutility : Int
  Aspi : Int
  AspiScoreDiv : Int
  Trend : Int
  TrendDiv : ℚ
  PruneDiv : Int
  PruneDepthDiv : Int
  HistQDiv : Int
  HistCDiv : Int
  HistNDiv : Int
  HistBonusMax : Int
  HistBonusBase : Int
  HistBonusDepth : Int
  HistMalusMax : Int
  HistMalusBase : Int
  HistMalusDepth : Int
  Tempo : Int
  BasePower : Int
  NPower : Int
  BPower : Int
  RPower : Int
  QPower : Int
  NCPower : Int
  BCPower : Int
  RCPower : Int
  QCPower : Int
  Modifier1 : Int
  Modifier2 : Int
  Modifier3 : Int
  Modifier4 : Int
  Modifier5 : Int
  Modifier6 : Int
  Modifier7 : Int
  Modifier8 : Int
  PawnScaleBase : Int
  PawnScaleX : Int
  PawnScaleBothSides : Int
  OCBSolo : Int
  OCBDuo : Int
  ScoreMovesLimit : Int
  MPGood : Int
  MPGoodDepth : Int
  MPBad : Int
  MPBadDepth : Int

/-- The all-zero configuration state, used as a concrete base point. -/
def baseState : UciState where
  requestedTTSize := 0
  threadCount := 0
  syzygyPath := []
  multiPV := 0
  noobLimit := 0
  noobbook := false
  chess960 := false
  onlineSyzygy := false
  LMRNoisyBase := 0
  LMRNoisyDiv := 0
  LMRQuietBase := 0
  LMRQuietDiv := 0
  IIRDepth := 0
  IIRCutDepth := 0
  RFPDepth := 0
  RFPBase := 0
  RFPHistScore := 0
  RFPHistory := 0
  NMPFlat := 0
  NMPDepth := 0
  NMPHist := 0
  NMPRBase := 0
  NMPRDepth := 0
  NMPREvalDiv := 0
  NMPREvalMin := 0
  ProbCut := 0
  ProbCutDepth := 0
  ProbCutReturn := 0
  LMPImp := 0
  LMPNonImp := 0
  HistPruneDepth := 0
  HistPrune := 0
  SEEPruneDepth := 0
  SEEPruneQ := 0
  SEEPruneN := 0
  SingExtDepth := 0
  SingExtTTDepth := 0
  SingExtDouble := 0
  LMRHist := 0
  DeeperBase := 0
  DeeperDepth := 0
  QSFutility := 0
  Aspi := 0
  AspiScoreDiv := 0
  Trend := 0
  TrendDiv := 0
  PruneDiv := 0
  PruneDepthDiv := 0
  HistQDiv := 0
  HistCDiv := 0
  HistNDiv := 0
  HistBonusMax := 0
  HistBonusBase := 0
  HistBonusDepth := 0
  HistMalusMax := 0
  HistMalusBase := 0
  HistMalusDepth := 0
  Tempo := 0
  BasePower := 0
  NPower := 0
  BPower := 0
  RPower := 0
  QPower := 0
  NCPower := 0
  BCPower := 0
  RCPower := 0
  QCPower := 0
  Modifier1 := 0
  Modifier2 := 0
  Modifier3 := 0
  Modifier4 := 0
  Modifier5 := 0
  Modifier6 := 0
  Modifier7 := 0
  Modifier8 := 0
  PawnScaleBase := 0
  PawnScaleX := 0
  PawnScaleBothSides := 0
  OCBSolo := 0
  OCBDuo := 0
  ScoreMovesLimit := 0
  MPGood := 0
  MPGoodDepth := 0
  MPBad := 0
  MPBadDepth := 0

/-- `SetOption` (uci.c lines 187-292), branch for branch in source order, including
the duplicated `"MPBadDepth"` check of lines 285 and 287.  `optionName` is the
input line's suffix starting after `"name "` (so it still contains `" value ..."`,
as in the C code, where `OptionNameIs` is a prefix `strncmp`), and `optionValue` is
the suffix starting after `"value "`.  Returns the updated state and the lines
printed. -/
def setOption (optionName optionValue : List Char) (s : UciState) : UciState × List String :=
  if optionNameIs optionName "Hash".toList then ({ s with requestedTTSize := atoi optionValue }, [])
  else if optionNameIs optionName "Threads".toList then ({ s with threadCount := atoi optionValue }, [])
  else if optionNameIs optionName "SyzygyPath".toList then ({ s with syzygyPath := optionValue }, [])
  else if optionNameIs optionName "MultiPV".toList then ({ s with multiPV := atoi optionValue }, [])
  else if optionNameIs optionName "NoobBookLimit".toList then ({ s with noobLimit := atoi optionValue }, [])
  else if optionNameIs optionName "NoobBook".toList then ({ s with noobbook := booleanValue optionValue }, [])
  else if optionNameIs optionName "UCI_Chess960".toList then ({ s with chess960 := booleanValue optionValue }, [])
  else if optionNameIs optionName "OnlineSyzygy".toList then ({ s with onlineSyzygy := booleanValue optionValue }, [])
  else if optionNameIs optionName "LMRNoisyBase".toList then ({ s with LMRNoisyBase := ((atoi optionValue : Int) : ℚ) / 100 }, [])
  else if optionNameIs optionName "LMRNoisyDiv".toList then ({ s with LMRNoisyDiv := ((atoi optionValue : Int) : ℚ) / 100 }, [])
  else if optionNameIs optionName "LMRQuietBase".toList then ({ s with LMRQuietBase := ((atoi optionValue : Int) : ℚ) / 100 }, [])
  else if optionNameIs optionName "LMRQuietDiv".toList then ({ s with LMRQuietDiv := ((atoi optionValue : Int) : ℚ) / 100 }, [])
  else if optionNameIs optionName "IIRDepth".toList then ({ s with IIRDepth := atoi optionValue }, [])
  else if optionNameIs optionName "IIRCutDepth".toList then ({ s with IIRCutDepth := atoi optionValue }, [])
  else if optionNameIs optionName "RFPDepth".toList then ({ s with RFPDepth := atoi optionValue }, [])
  else if optionNameIs optionName "RFPBase".toList then ({ s with RFPBase := atoi optionValue }, [])
  else if optionNameIs optionName "RFPHistScore".toList then ({ s with RFPHistScore := atoi optionValue }, [])
  else if optionNameIs optionName "RFPHistory".toList then ({ s with RFPHistory := atoi optionValue }, [])
  else if optionNameIs optionName "NMPFlat".toList then ({ s with NMPFlat := atoi optionValue }, [])
  else if optionNameIs optionName "NMPDepth".toList then ({ s with NMPDepth := atoi optionValue }, [])
  else if optionNameIs optionName "NMPHist".toList then ({ s with NMPHist := atoi optionValue }, [])
  else if optionNameIs optionName "NMPRBase".toList then ({ s with NMPRBase := atoi optionValue }, [])
  else if optionNameIs optionName "NMPRDepth".toList then ({ s with NMPRDepth := atoi optionValue }, [])
  else if optionNameIs optionName "NMPREvalDiv".toList then ({ s with NMPREvalDiv := atoi optionValue }, [])
  else if optionNameIs optionName "NMPREvalMin".toList then ({ s with NMPREvalMin := atoi optionValue }, [])
  else if optionNameIs optionName "ProbCut".toList then ({ s with ProbCut := atoi optionValue }, [])
  else if optionNameIs optionName "ProbCutDepth".toList then ({ s with ProbCutDepth := atoi optionValue }, [])
  else if optionNameIs optionName "ProbCutReturn".toList then ({ s with ProbCutReturn := atoi optionValue }, [])
  else if optionNameIs optionName "LMPImp".toList then ({ s with LMPImp := atoi optionValue }, [])
  else if optionNameIs optionName "LMPNonImp".toList then ({ s with LMPNonImp := atoi optionValue }, [])
  else if optionNameIs optionName "HistPruneDepth".toList then ({ s with HistPruneDepth := atoi optionValue }, [])
  else if optionNameIs optionName "HistPrune".toList then ({ s with HistPrune := atoi optionValue }, [])
  else if optionNameIs optionName "SEEPruneDepth".toList then ({ s with SEEPruneDepth := atoi optionValue }, [])
  else if optionNameIs optionName "SEEPruneQ".toList then ({ s with SEEPruneQ := atoi optionValue }, [])
  else if optionNameIs optionName "SEEPruneN".toList then ({ s with SEEPruneN := atoi optionValue }, [])
  else if optionNameIs optionName "SingExtDepth".toList then ({ s with SingExtDepth := atoi optionValue }, [])
  else if optionNameIs optionName "SingExtTTDepth".toList then ({ s with SingExtTTDepth := atoi optionValue }, [])
  else if optionNameIs optionName "SingExtDouble".toList then ({ s with SingExtDouble := atoi optionValue }, [])
  else if optionNameIs optionName "LMRHist".toList then ({ s with LMRHist := atoi optionValue }, [])
  else if optionNameIs optionName "DeeperBase".toList then ({ s with DeeperBase := atoi optionValue }, [])
  else if optionNameIs optionName "DeeperDepth".toList then ({ s with DeeperDepth := atoi optionValue }, [])
  else if optionNameIs optionName "QSFutility".toList then ({ s with QSFutility := atoi optionValue }, [])
  else if optionNameIs optionName "Aspi".toList then ({ s with Aspi := atoi optionValue }, [])
  else if optionNameIs optionName "AspiScoreDiv".toList then ({ s with AspiScoreDiv := atoi optionValue }, [])
  else if optionNameIs optionName "Trend".toList then ({ s with Trend := atoi optionValue }, [])
  else if optionNameIs optionName "TrendDiv".toList then ({ s with TrendDiv := ((atoi optionValue : Int) : ℚ) / 100 }, [])
  else if optionNameIs optionName "PruneDiv".toList then ({ s with PruneDiv := atoi optionValue }, [])
  else if optionNameIs optionName "PruneDepthDiv".toList then ({ s with PruneDepthDiv := atoi optionValue }, [])
  else if optionNameIs optionName "HistQDiv".toList then ({ s with HistQDiv := atoi optionValue }, [])
  else if optionNameIs optionName "HistCDiv".toList then ({ s with HistCDiv := atoi optionValue }, [])
  else if optionNameIs optionName "HistNDiv".toList then ({ s with HistNDiv := atoi optionValue }, [])
  else if optionNameIs optionName "HistBonusMax".toList then ({ s with HistBonusMax := atoi optionValue }, [])
  else if optionNameIs optionName "HistBonusBase".toList then ({ s with HistBonusBase := atoi optionValue }, [])
  else if optionNameIs optionName "HistBonusDepth".toList then ({ s with HistBonusDepth := atoi optionValue }, [])
  else if optionNameIs optionName "HistMalusMax".toList then ({ s with HistMalusMax := atoi optionValue }, [])
  else if optionNameIs optionName "HistMalusBase".toList then ({ s with HistMalusBase := atoi optionValue }, [])
  else if optionNameIs optionName "HistMalusDepth".toList then ({ s with HistMalusDepth := atoi optionValue }, [])
  else if optionNameIs optionName "Tempo".toList then ({ s with Tempo := atoi optionValue }, [])
  else if optionNameIs optionName "BasePower".toList then ({ s with BasePower := atoi optionValue }, [])
  else if optionNameIs optionName "NPower".toList then ({ s with NPower := atoi optionValue }, [])
  else if optionNameIs optionName "BPower".toList then ({ s with BPower := atoi optionValue }, [])
  else if optionNameIs optionName "RPower".toList then ({ s with RPower := atoi optionValue }, [])
  else if optionNameIs optionName "QPower".toList then ({ s with QPower := atoi optionValue }, [])
  else if optionNameIs optionName "NCPower".toList then ({ s with NCPower := atoi optionValue }, [])
  else if optionNameIs optionName "BCPower".toList then ({ s with BCPower := atoi optionValue }, [])
  else if optionNameIs optionName "RCPower".toList then ({ s with RCPower := atoi optionValue }, [])
  else if optionNameIs optionName "QCPower".toList then ({ s with QCPower := atoi optionValue }, [])
  else if optionNameIs optionName "Modifier1".toList then ({ s with Modifier1 := atoi optionValue }, [])
  else if optionNameIs optionName "Modifier2".toList then ({ s with Modifier2 := atoi optionValue }, [])
  else if optionNameIs optionName "Modifier3".toList then ({ s with Modifier3 := atoi optionValue }, [])
  else if optionNameIs optionName "Modifier4".toList then ({ s with Modifier4 := atoi optionValue }, [])
  else if optionNameIs optionName "Modifier5".toList then ({ s with Modifier5 := atoi optionValue }, [])
  else if optionNameIs optionName "Modifier6".toList then ({ s with Modifier6 := atoi optionValue }, [])
  else if optionNameIs optionName "Modifier7".toList then ({ s with Modifier7 := atoi optionValue }, [])
  else if optionNameIs optionName "Modifier8".toList then ({ s with Modifier8 := atoi optionValue }, [])
  else if optionNameIs optionName "PawnScaleBase".toList then ({ s with PawnScaleBase := atoi optionValue }, [])
  else if optionNameIs optionName "PawnScaleX".toList then ({ s with PawnScaleX := atoi optionValue }, [])
  else if optionNameIs optionName "PawnScaleBothSides".toList then ({ s with PawnScaleBothSides := atoi optionValue }, [])
  else if optionNameIs optionName "OCBSolo".toList then ({ s with OCBSolo := atoi optionValue }, [])
  else if optionNameIs optionName "OCBDuo".toList then ({ s with OCBDuo := atoi optionValue }, [])
  else if optionNameIs optionName "ScoreMovesLimit".toList then ({ s with ScoreMovesLimit := atoi optionValue }, [])
  else if optionNameIs optionName "MPGood".toList then ({ s with MPGood := atoi optionValue }, [])
  else if optionNameIs optionName "MPBadDepth".toList then ({ s with MPGoodDepth := atoi optionValue }, [])
  else if optionNameIs optionName "MPBad".toList then ({ s with MPBad := atoi optionValue }, [])
  else if optionNameIs optionName "MPBadDepth".toList then ({ s with MPBadDepth := atoi optionValue }, [])
  else (s, ["info string No such option."])

/-- The option names checked by `setOption`, in source order (the name
`"MPBadDepth"` appears twice, as in the source). -/
def registryNames : List (List Char) :=
  ["Hash".toList, "Threads".toList, "SyzygyPath".toList, "MultiPV".toList, "NoobBookLimit".toList, "NoobBook".toList, "UCI_Chess960".toList, "OnlineSyzygy".toList, "LMRNoisyBase".toList, "LMRNoisyDiv".toList, "LMRQuietBase".toList, "LMRQuietDiv".toList, "IIRDepth".toList, "IIRCutDepth".toList, "RFPDepth".toList, "RFPBase".toList, "RFPHistScore".toList, "RFPHistory".toList, "NMPFlat".toList, "NMPDepth".toList, "NMPHist".toList, "NMPRBase".toList, "NMPRDepth".toList, "NMPREvalDiv".toList, "NMPREvalMin".toList, "ProbCut".toList, "ProbCutDepth".toList, "ProbCutReturn".toList, "LMPImp".toList, "LMPNonImp".toList, "HistPruneDepth".toList, "HistPrune".toList, "SEEPruneDepth".toList, "SEEPruneQ".toList, "SEEPruneN".toList, "SingExtDepth".toList, "SingExtTTDepth".toList, "SingExtDouble".toList, "LMRHist".toList, "DeeperBase".toList, "DeeperDepth".toList, "QSFutility".toList, "Aspi".toList, "AspiScoreDiv".toList, "Trend".toList, "TrendDiv".toList, "PruneDiv".toList, "PruneDepthDiv".toList, "HistQDiv".toList, "HistCDiv".toList, "HistNDiv".toList, "HistBonusMax".toList, "HistBonusBase".toList, "HistBonusDepth".toList, "HistMalusMax".toList, "HistMalusBase".toList, "HistMalusDepth".toList, "Tempo".toList, "BasePower".toList, "NPower".toList, "BPower".toList, "RPower".toList, "QPower".toList, "NCPower".toList, "BCPower".toList, "RCPower".toList, "QCPower".toList, "Modifier1".toList, "Modifier2".toList, "Modifier3".toList, "Modifier4".toList, "Modifier5".toList, "Modifier6".toList, "Modifier7".toList, "Modifier8".toList, "PawnScaleBase".toList, "PawnScaleX".toList, "PawnScaleBothSides".toList, "OCBSolo".toList, "OCBDuo".toList, "ScoreMovesLimit".toList, "MPGood".toList, "MPBadDepth".toList, "MPBad".toList, "MPBadDepth".toList]

/- ## Progress reporting (uci.c lines 465-521) -/

/-- `MateScore` (uci.c lines 466-469): `d = (MATE - abs(score) + 1) / 2`
with C truncating division, signed by whether `score > 0`.  `mate` is the
engine's `MATE` constant (defined outside src/), kept as a parameter. -/
def mateScore (mate score : Int) : Int :=
  let d := (mate - |score| + 1).tdiv 2
  if score > 0 then d else -d

/-- The score-type selection of `PrintThinking` (uci.c line 495):
`abs(score) >= MATE_IN_MAX ? "mate" : "cp"`.  `mateInMax` is the engine's
`MATE_IN_MAX` constant, kept as a parameter. -/
def scoreType (mateInMax score : Int) : String :=
  if |score| ≥ mateInMax then "mate" else "cp"

/-- The bound-marker selection of `PrintThinking` (uci.c lines 498-500). -/
def boundOf (alpha beta score : Int) : String :=
  if score ≥ beta then " lowerbound"
  else if score ≤ alpha then " upperbound"
  else ""

/-- The printed-score translation of `PrintThinking` (uci.c lines 503-506):
a mate score becomes a mate distance, a near-zero score with a very short
principal variation is normalised to 0, anything else is printed as is. -/
def printedScore (mate mateInMax : Int) (pvLength : Nat) (score : Int) : Int :=
  if |score| ≥ mateInMax then mateScore mate score
  else if |score| ≤ 8 ∧ pvLength ≤ 2 then 0
  else score

/-- The multi-PV loop of `PrintThinking` (uci.c lines 486-519), reduced to
which slot indices produce an info line.  `pvLen i` is
`thread->rootMoves[i].pv.length`; the loop runs `i` from `start` for at most
`fuel` further iterations (`fuel = multiPV - start`), and `if (pv->length
== 0) break;` ends it at the first empty slot. -/
def reportFrom (pvLen : Nat → Nat) (start : Nat) : Nat → List Nat
  | 0 => []
  | fuel + 1 =>
      if pvLen start = 0 then []
      else start :: reportFrom pvLen (start + 1) fuel

/-- The slot indices `0 ≤ i < multiPV` for which `PrintThinking` emits an
info line. -/
def reportSlots (pvLen : Nat → Nat) (multiPV : Nat) : List Nat :=
  reportFrom pvLen 0 multiPV

/-- The PV-length table used as the C7 counterexample: slot 0 has an empty
principal variation, every later slot a nonempty one. -/
def pvLenEx : Nat → Nat := fun i => if i = 0 then 0 else 1

/- ## Helper lemmas -/

/-- For a non-negative integer `m`, the C expression `(m + 1) / 2` (truncating
division) is the ceiling of `m / 2`. -/
theorem tdivTwoCeil (m : Int) (hm : 0 ≤ m) : (m + 1).tdiv 2 = ⌈((m : ℚ)) / 2⌉ := by
  rw [Int.tdiv_eq_ediv (by omega) (by norm_num), eq_comm, Int.ceil_eq_iff]
  have h2 : 2 * ((m + 1) / 2) + (m + 1) % 2 = m + 1 := Int.ediv_add_emod (m + 1) 2
  have h3 : 0 ≤ (m + 1) % 2 := Int.emod_nonneg _ (by norm_num)
  have hc : (m : ℚ) = 2 * (((m + 1) / 2 : ℤ) : ℚ) + (((m + 1) % 2 : ℤ) : ℚ) - 1 := by
    have h5 : (m : ℚ) = ((2 * ((m + 1) / 2) + (m + 1) % 2 - 1 : ℤ) : ℚ) := by
      rw [h2]; push_cast; ring
    rw [h5]; push_cast; ring
  have h3q : (0 : ℚ) ≤ (((m + 1) % 2 : ℤ) : ℚ) := by exact_mod_cast h3
  have h4q : (((m + 1) % 2 : ℤ) : ℚ) ≤ 1 := by
    exact_mod_cast (by omega : (m + 1) % 2 ≤ 1)
  constructor
  · rw [hc]; linarith
  · rw [hc]; linarith

/-- Membership in the report loop started at `start` with `fuel` iterations
left: exactly the indices from `start` to the first empty slot, capped by the
fuel. -/
theorem mem_reportFrom (pvLen : Nat → Nat) :
    ∀ (fuel start i : Nat),
      i ∈ reportFrom pvLen start fuel ↔
        start ≤ i ∧ i < start + fuel ∧ ∀ j, start ≤ j → j ≤ i → pvLen j ≠ 0 := by
  intro fuel
  induction fuel with
  | zero =>
    intro start i
    simp only [reportFrom, List.not_mem_nil, false_iff]
    rintro ⟨h1, h2, -⟩
    omega
  | succ n ih =>
    intro start i
    simp only [reportFrom]
    by_cases h0 : pvLen start = 0
    · rw [if_pos h0]
      simp only [List.not_mem_nil, false_iff]
      rintro ⟨hs, -, hall⟩
      exact hall start le_rfl hs h0
    · rw [if_neg h0]
      simp only [List.mem_cons, ih (start + 1) i]
      constructor
      · rintro (heq | ⟨hs, hlt, hall⟩)
        · refine ⟨heq.ge, by omega, fun j hj1 hj2 => ?_⟩
          have hj : j = start := by omega
          rw [hj]; exact h0
        · refine ⟨by omega, by omega, fun j hj1 hj2 => ?_⟩
          rcases Nat.eq_or_lt_of_le hj1 with rfl | hlt2
          · exact h0
          · exact hall j (by omega) hj2
      · rintro ⟨hs, hlt, hall⟩
        rcases Nat.eq_or_lt_of_le hs with rfl | hlt2
        · exact Or.inl rfl
        · exact Or.inr ⟨by omega, by omega, fun j hj1 hj2 => hall j (by omega) hj2⟩

/-- `strncmp(a, b, n) == 0` holds exactly when the first `n` characters of
the two strings agree, i.e. when their length-`n` truncations are equal. -/
theorem strncmpEq_iff (a : List Char) :
    ∀ (b : List Char) (n : Nat),
      strncmpEq a b n = true ↔ a.take n = b.take n := by
  induction a with
  | nil => intro b n; cases b <;> cases n <;> simp [strncmpEq]
  | cons x xs ih =>
    intro b n
    cases b with
    | nil => cases n <;> simp [strncmpEq]
    | cons y ys =>
      cases n with
      | zero => simp [strncmpEq]
      | succ m =>
        simp [strncmpEq, List.take, ih ys m, Bool.and_eq_true, beq_iff_eq,
          List.cons.injEq]

/- ## Claim theorems -/

/-- C1: the command hash `HashInput` — starting from 0 and, with a 1-based
position counter, XORing the running value with (character code XOR counter)
for each character of the leading token — produces pairwise-distinct values
on the eight recognized keywords, so dispatch by hash is unambiguous over
the recognized command set. -/
theorem hashInput_keywords_distinct :
    (uciKeywords.map (fun s => hashInput s.toList)).Nodup := by decide

/-- C2: for every input line and position, `ParseTimeControl` sets
`timelimit` to true iff `time != 0` or `movetime != 0`, sets `depth` to the
parsed depth value when it is nonzero and to 100 otherwise, and sets
`infinite` true iff the substring "infinite" occurs in the line; in
particular "go depth 10" yields depth 10, timelimit false, infinite false,
mate 0, and "go infinite" yields infinite true, depth 100, timelimit
false. -/
theorem parseTimeControl_fields (parseMove : List Char → Int) (str : List Char)
    (stm : Side) (now : Int) (old : SearchLimits) :
    ((parseTimeControl parseMove str stm now old).timelimit = true ↔
      ((parseTimeControl parseMove str stm now old).time ≠ 0 ∨
       (parseTimeControl parseMove str stm now old).movetime ≠ 0)) ∧
    ((parseTimeControl parseMove str stm now old).depth =
      if setLimit str "depth".toList = 0 then 100
      else setLimit str "depth".toList) ∧
    ((parseTimeControl parseMove str stm now old).infinite = true ↔
      occursIn "infinite".toList str = true) ∧
    (∀ (stm2 : Side) (old2 : SearchLimits),
      (parseTimeControl parseMove "go depth 10".toList stm2 now old2).depth = 10 ∧
      (parseTimeControl parseMove "go depth 10".toList stm2 now old2).timelimit = false ∧
      (parseTimeControl parseMove "go depth 10".toList stm2 now old2).infinite = false ∧
      (parseTimeControl parseMove "go depth 10".toList stm2 now old2).mate = 0 ∧
      (parseTimeControl parseMove "go infinite".toList stm2 now old2).infinite = true ∧
      (parseTimeControl parseMove "go infinite".toList stm2 now old2).depth = 100 ∧
      (parseTimeControl parseMove "go infinite".toList stm2 now old2).timelimit = false) := by
  refine ⟨?_, rfl, Iff.rfl, ?_⟩
  · simp [parseTimeControl, bne_iff_ne]
  · intro stm2 old2
    cases stm2 <;> exact ⟨rfl, rfl, rfl, rfl, rfl, rfl, rfl⟩

/-- C6: every call to `ParseTimeControl` zeroes exactly the `SearchLimits`
fields declared before `multiPV` and stamps `start`; `multiPV` itself is
never modified, so its value set via setoption is preserved unchanged
across successive go invocations.  The third conjunct states the frame:
the result depends on the previous record only through `multiPV`. -/
theorem parseTimeControl_frame (parseMove : List Char → Int) (str : List Char)
    (stm : Side) (now : Int) (old : SearchLimits) :
    (parseTimeControl parseMove str stm now old).multiPV = old.multiPV ∧
    (parseTimeControl parseMove str stm now old).start = now ∧
    parseTimeControl parseMove str stm now old =
      parseTimeControl parseMove str stm now
        { start := 0, time := 0, inc := 0, movestogo := 0, movetime := 0,
          depth := 0, mate := 0, infinite := false, searchmoves := [],
          timelimit := false, multiPV := old.multiPV } :=
  ⟨rfl, rfl, rfl⟩

/-- C3 (evaluation at the failing input): `setoption name MPBadDepth value 7`
stores 7 into `MPGoodDepth` and leaves `MPBadDepth` unchanged (uci.c line
285 checks the name "MPBadDepth" but assigns `MPGoodDepth`, so the later
line 287 that would assign `MPBadDepth` is unreachable), and `setoption
name MPGoodDepth value 7` is caught by the earlier "MPGood" prefix check
and stores 7 into `MPGood`, leaving `MPGoodDepth` unchanged — contradicting
the `uci` handler, which advertises MPGoodDepth and MPBadDepth as two
independently settable options. -/
theorem setOption_mpDepth_misrouted :
    (setOption "MPBadDepth value 7".toList "7".toList baseState).1.MPGoodDepth = 7 ∧
    (setOption "MPBadDepth value 7".toList "7".toList baseState).1.MPBadDepth =
      baseState.MPBadDepth ∧
    (setOption "MPGoodDepth value 7".toList "7".toList baseState).1.MPGood = 7 ∧
    (setOption "MPGoodDepth value 7".toList "7".toList baseState).1.MPGoodDepth =
      baseState.MPGoodDepth :=
  ⟨rfl, rfl, rfl, rfl⟩

/-- C4: a root-move score at or above the forced-mate threshold is reported
with type "mate" and value `MateScore(score)`, which equals
`ceil((MATE - |score|) / 2)` carrying the sign of the original score
(positive when `score > 0`, negative otherwise) — a distance in full moves
rather than plies.  `mate` and `mateInMax` stand for the engine constants
`MATE` and `MATE_IN_MAX`; a reported score satisfies `|score| ≤ MATE`. -/
theorem printThinking_mate (mate mateInMax score : Int) (pvLength : Nat)
    (h1 : mateInMax ≤ |score|) (h2 : |score| ≤ mate) :
    scoreType mateInMax score = "mate" ∧
    printedScore mate mateInMax pvLength score = mateScore mate score ∧
    mateScore mate score =
      (if 0 < score then 1 else -1) * ⌈((mate - |score| : ℤ) : ℚ) / 2⌉ := by
  have hm : (0 : ℤ) ≤ mate - |score| := by linarith
  have key := tdivTwoCeil (mate - |score|) hm
  refine ⟨?_, ?_, ?_⟩
  · simp only [scoreType]
    rw [if_pos h1]
  · simp only [printedScore]
    rw [if_pos h1]
  · simp only [mateScore]
    by_cases hs : score > 0
    · rw [if_pos hs, if_pos hs, key, one_mul]
    · rw [if_neg hs, if_neg hs, key, neg_one_mul]

/-- C4 witness: MATE = 32000, MATE_IN_MAX = 31872, score = 31995 (a mate
five plies away, reported as mate in 3). -/
theorem printThinking_mate_witness :
    scoreType 31872 31995 = "mate" ∧
    printedScore 32000 31872 5 31995 = mateScore 32000 31995 ∧
    mateScore 32000 31995 =
      (if (0 : ℤ) < 31995 then 1 else -1) * ⌈((32000 - |(31995 : ℤ)| : ℤ) : ℚ) / 2⌉ :=
  printThinking_mate 32000 31872 31995 5 (by decide) (by decide)

/-- C5: against an aspiration window `[alpha, beta]`, a score at or above
`beta` is printed with the " lowerbound" marker (equality included), a score
at or below `alpha` with the " upperbound" marker (equality included), and a
score strictly between with no marker. -/
theorem printThinking_bound (alpha beta score : Int) (h : alpha < beta) :
    (beta ≤ score → boundOf alpha beta score = " lowerbound") ∧
    (score ≤ alpha → boundOf alpha beta score = " upperbound") ∧
    (alpha < score → score < beta → boundOf alpha beta score = "") := by
  refine ⟨fun h1 => ?_, fun h1 => ?_, fun h1 h2 => ?_⟩
  · simp only [boundOf]
    rw [if_pos h1]
  · simp only [boundOf]
    rw [if_neg (by omega), if_pos h1]
  · simp only [boundOf]
    rw [if_neg (by omega), if_neg (by omega)]

/-- C5 witness: window [0, 10]; scores 10 (= beta), 0 (= alpha) and 5. -/
theorem printThinking_bound_witness :
    boundOf 0 10 10 = " lowerbound" ∧ boundOf 0 10 0 = " upperbound" ∧
    boundOf 0 10 5 = "" :=
  ⟨(printThinking_bound 0 10 10 (by decide)).1 (by decide),
   (printThinking_bound 0 10 0 (by decide)).2.1 (by decide),
   (printThinking_bound 0 10 5 (by decide)).2.2 (by decide) (by decide)⟩

/-- C7 counterexample: with multiPV = 2, slot 0 empty and slot 1 nonempty,
`PrintThinking`'s loop emits no line for slot 1 — the empty slot terminates
the loop (`break` in uci.c line 492) instead of being skipped, so a later
nonempty slot within range is NOT reported. -/
theorem reportSlots_no_skip :
    pvLenEx 1 ≠ 0 ∧ 1 < 2 ∧ 1 ∉ reportSlots pvLenEx 2 := by decide

/-- C7 (amended): an empty principal variation produces no info line and
ends the report; a slot among 0 .. multiPV-1 is reported exactly when every
slot up to and including it is nonempty, so the slots before the first
empty one are all still reported, in order. -/
theorem reportSlots_mem (pvLen : Nat → Nat) (multiPV i : Nat) :
    i ∈ reportSlots pvLen multiPV ↔
      i < multiPV ∧ ∀ j, j ≤ i → pvLen j ≠ 0 := by
  rw [reportSlots, mem_reportFrom pvLen multiPV 0 i]
  constructor
  · rintro ⟨-, h2, h3⟩
    exact ⟨by omega, fun j hj => h3 j (Nat.zero_le j) hj⟩
  · rintro ⟨h2, h3⟩
    exact ⟨Nat.zero_le i, by omega, fun j _ hj => h3 j hj⟩

/-- C8 counterexample: the value string "truex" is parsed as true by
`SetOption`'s boolean parsing (here via the UCI_Chess960 entry), although it
is not the literal "true" — the check is a 4-character prefix comparison. -/
theorem setOption_true_literal_cex :
    (setOption "UCI_Chess960 value truex".toList "truex".toList baseState).1.chess960
        = true ∧
    "truex".toList ≠ "true".toList := by
  exact ⟨rfl, by decide⟩

/-- C8 (amended): for every value string v, `SetOption`'s boolean parsing
yields true exactly when the first four characters of v are 't','r','u','e'
(the literal "true" as a prefix), and yields false for every other value
string; there is no separate check for the literal "false". -/
theorem booleanValue_take_four (v : List Char) :
    booleanValue v = true ↔ v.take 4 = "true".toList := by
  unfold booleanValue
  rw [strncmpEq_iff]
  rw [show ("true".toList).take 4 = "true".toList from rfl]

/-- C10: a setoption line whose option name matches no registry entry (no
registry name is a prefix of the text after "name ") prints exactly the
informational line "info string No such option." and leaves every registry
storage location unchanged. -/
theorem setOption_unknown (optionName optionValue : List Char) (s : UciState)
    (h : ∀ n ∈ registryNames, optionNameIs optionName n = false) :
    setOption optionName optionValue s = (s, ["info string No such option."]) := by
  have h0 : optionNameIs optionName "Hash".toList = false := h _ (by decide)
  have h1 : optionNameIs optionName "Threads".toList = false := h _ (by decide)
  have h2 : optionNameIs optionName "SyzygyPath".toList = false := h _ (by decide)
  have h3 : optionNameIs optionName "MultiPV".toList = false := h _ (by decide)
  have h4 : optionNameIs optionName "NoobBookLimit".toList = false := h _ (by decide)
  have h5 : optionNameIs optionName "NoobBook".toList = false := h _ (by decide)
  have h6 : optionNameIs optionName "UCI_Chess960".toList = false := h _ (by decide)
  have h7 : optionNameIs optionName "OnlineSyzygy".toList = false := h _ (by decide)
  have h8 : optionNameIs optionName "LMRNoisyBase".toList = false := h _ (by decide)
  have h9 : optionNameIs optionName "LMRNoisyDiv".toList = false := h _ (by decide)
  have h10 : optionNameIs optionName "LMRQuietBase".toList = false := h _ (by decide)
  have h11 : optionNameIs optionName "LMRQuietDiv".toList = false := h _ (by decide)
  have h12 : optionNameIs optionName "IIRDepth".toList = false := h _ (by decide)
  have h13 : optionNameIs optionName "IIRCutDepth".toList = false := h _ (by decide)
  have h14 : optionNameIs optionName "RFPDepth".toList = false := h _ (by decide)
  have h15 : optionNameIs optionName "RFPBase".toList = false := h _ (by decide)
  have h16 : optionNameIs optionName "RFPHistScore".toList = false := h _ (by decide)
  have h17 : optionNameIs optionName "RFPHistory".toList = false := h _ (by decide)
  have h18 : optionNameIs optionName "NMPFlat".toList = false := h _ (by decide)
  have h19 : optionNameIs optionName "NMPDepth".toList = false := h _ (by decide)
  have h20 : optionNameIs optionName "NMPHist".toList = false := h _ (by decide)
  have h21 : optionNameIs optionName "NMPRBase".toList = false := h _ (by decide)
  have h22 : optionNameIs optionName "NMPRDepth".toList = false := h _ (by decide)
  have h23 : optionNameIs optionName "NMPREvalDiv".toList = false := h _ (by decide)
  have h24 : optionNameIs optionName "NMPREvalMin".toList = false := h _ (by decide)
  have h25 : optionNameIs optionName "ProbCut".toList = false := h _ (by decide)
  have h26 : optionNameIs optionName "ProbCutDepth".toList = false := h _ (by decide)
  have h27 : optionNameIs optionName "ProbCutReturn".toList = false := h _ (by decide)
  have h28 : optionNameIs optionName "LMPImp".toList = false := h _ (by decide)
  have h29 : optionNameIs optionName "LMPNonImp".toList = false := h _ (by decide)
  have h30 : optionNameIs optionName "HistPruneDepth".toList = false := h _ (by decide)
  have h31 : optionNameIs optionName "HistPrune".toList = false := h _ (by decide)
  have h32 : optionNameIs optionName "SEEPruneDepth".toList = false := h _ (by decide)
  have h33 : optionNameIs optionName "SEEPruneQ".toList = false := h _ (by decide)
  have h34 : optionNameIs optionName "SEEPruneN".toList = false := h _ (by decide)
  have h35 : optionNameIs optionName "SingExtDepth".toList = false := h _ (by decide)
  have h36 : optionNameIs optionName "SingExtTTDepth".toList = false := h _ (by decide)
  have h37 : optionNameIs optionName "SingExtDouble".toList = false := h _ (by decide)
  have h38 : optionNameIs optionName "LMRHist".toList = false := h _ (by decide)
  have h39 : optionNameIs optionName "DeeperBase".toList = false := h _ (by decide)
  have h40 : optionNameIs optionName "DeeperDepth".toList = false := h _ (by decide)
  have h41 : optionNameIs optionName "QSFutility".toList = false := h _ (by decide)
  have h42 : optionNameIs optionName "Aspi".toList = false := h _ (by decide)
  have h43 : optionNameIs optionName "AspiScoreDiv".toList = false := h _ (by decide)
  have h44 : optionNameIs optionName "Trend".toList = false := h _ (by decide)
  have h45 : optionNameIs optionName "TrendDiv".toList = false := h _ (by decide)
  have h46 : optionNameIs optionName "PruneDiv".toList = false := h _ (by decide)
  have h47 : optionNameIs optionName "PruneDepthDiv".toList = false := h _ (by decide)
  have h48 : optionNameIs optionName "HistQDiv".toList = false := h _ (by decide)
  have h49 : optionNameIs optionName "HistCDiv".toList = false := h _ (by decide)
  have h50 : optionNameIs optionName "HistNDiv".toList = false := h _ (by decide)
  have h51 : optionNameIs optionName "HistBonusMax".toList = false := h _ (by decide)
  have h52 : optionNameIs optionName "HistBonusBase".toList = false := h _ (by decide)
  have h53 : optionNameIs optionName "HistBonusDepth".toList = false := h _ (by decide)
  have h54 : optionNameIs optionName "HistMalusMax".toList = false := h _ (by decide)
  have h55 : optionNameIs optionName "HistMalusBase".toList = false := h _ (by decide)
  have h56 : optionNameIs optionName "HistMalusDepth".toList = false := h _ (by decide)
  have h57 : optionNameIs optionName "Tempo".toList = false := h _ (by decide)
  have h58 : optionNameIs optionName "BasePower".toList = false := h _ (by decide)
  have h59 : optionNameIs optionName "NPower".toList = false := h _ (by decide)
  have h60 : optionNameIs optionName "BPower".toList = false := h _ (by decide)
  have h61 : optionNameIs optionName "RPower".toList = false := h _ (by decide)
  have h62 : optionNameIs optionName "QPower".toList = false := h _ (by decide)
  have h63 : optionNameIs optionName "NCPower".toList = false := h _ (by decide)
  have h64 : optionNameIs optionName "BCPower".toList = false := h _ (by decide)
  have h65 : optionNameIs optionName "RCPower".toList = false := h _ (by decide)
  have h66 : optionNameIs optionName "QCPower".toList = false := h _ (by decide)
  have h67 : optionNameIs optionName "Modifier1".toList = false := h _ (by decide)
  have h68 : optionNameIs optionName "Modifier2".toList = false := h _ (by decide)
  have h69 : optionNameIs optionName "Modifier3".toList = false := h _ (by decide)
  have h70 : optionNameIs optionName "Modifier4".toList = false := h _ (by decide)
  have h71 : optionNameIs optionName "Modifier5".toList = false := h _ (by decide)
  have h72 : optionNameIs optionName "Modifier6".toList = false := h _ (by decide)
  have h73 : optionNameIs optionName "Modifier7".toList = false := h _ (by decide)
  have h74 : optionNameIs optionName "Modifier8".toList = false := h _ (by decide)
  have h75 : optionNameIs optionName "PawnScaleBase".toList = false := h _ (by decide)
  have h76 : optionNameIs optionName "PawnScaleX".toList = false := h _ (by decide)
  have h77 : optionNameIs optionName "PawnScaleBothSides".toList = false := h _ (by decide)
  have h78 : optionNameIs optionName "OCBSolo".toList = false := h _ (by decide)
  have h79 : optionNameIs optionName "OCBDuo".toList = false := h _ (by decide)
  have h80 : optionNameIs optionName "ScoreMovesLimit".toList = false := h _ (by decide)
  have h81 : optionNameIs optionName "MPGood".toList = false := h _ (by decide)
  have h82 : optionNameIs optionName "MPBadDepth".toList = false := h _ (by decide)
  have h83 : optionNameIs optionName "MPBad".toList = false := h _ (by decide)
  simp only [setOption]
  rw [h0, h1, h2, h3, h4, h5, h6, h7, h8, h9, h10, h11, h12, h13, h14, h15, h16, h17, h18, h19, h20, h21, h22, h23, h24, h25, h26, h27, h28, h29, h30, h31, h32, h33, h34, h35, h36, h37, h38, h39, h40, h41, h42, h43, h44, h45, h46, h47, h48, h49, h50, h51, h52, h53, h54, h55, h56, h57, h58, h59, h60, h61, h62, h63, h64, h65, h66, h67, h68, h69, h70, h71, h72, h73, h74, h75, h76, h77, h78, h79, h80, h81, h82, h83]
  simp

/-- C10 witness: the name "Foobar" matches no registry entry; `setOption`
leaves the base state unchanged and prints the informational line. -/
theorem setOption_unknown_witness :
    (∀ n ∈ registryNames, optionNameIs "Foobar value 1".toList n = false) ∧
    setOption "Foobar value 1".toList "1".toList baseState =
      (baseState, ["info string No such option."]) :=
  ⟨by decide, setOption_unknown "Foobar value 1".toList "1".toList baseState (by decide)⟩
